import Mathlib

/-!
Shallow embedding of the `log4rs-syslog-net` crate (src/lib.rs, src/plain.rs,
src/rfc5424.rs, src/rfc5425.rs, src/config.rs), together with theorems that
settle the frozen claims about its specification.

Rust `String`s are modelled by Lean `String`s (both are sequences of Unicode
scalar values serialised as UTF-8); raw byte buffers (`Vec<u8>`) are modelled
by `List Nat` with every element below 256.  Machine integers that never
overflow in the modelled code paths (`u8` priorities bounded by 191, `usize`
lengths) are modelled by `Nat`.  External effects (the system clock, the
process id, DNS resolution, socket binding and TCP connection) are passed in
explicitly as values describing the outcome the operating system produced.
-/

/-- Result of running a piece of Rust code: a normal value, a typed error
value returned to the caller (`Err`), or a process abort (`panic!`, as caused
by `Option::unwrap` / `Result::unwrap` on a failure). -/
inductive RunResult (α : Type) where
  | ok (a : α) : RunResult α
  | err (e : String) : RunResult α
  | panicked : RunResult α
deriving DecidableEq, Repr

/-- The space character, written numerically. -/
def spaceChar : Char := Char.ofNat 32

/-- UTF-8 serialisation of one Unicode scalar value, as `str::as_bytes`
produces it (1 to 4 bytes). -/
def charUtf8 (c : Char) : List Nat :=
  let n := c.toNat
  if n < 0x80 then [n]
  else if n < 0x800 then [0xC0 + n / 64, 0x80 + n % 64]
  else if n < 0x10000 then [0xE0 + n / 4096, 0x80 + n / 64 % 64, 0x80 + n % 64]
  else [0xF0 + n / 262144, 0x80 + n / 4096 % 64, 0x80 + n / 64 % 64, 0x80 + n % 64]

/-- Embeds `s.as_bytes()` : the UTF-8 bytes of a string. -/
def strBytes (s : String) : List Nat :=
  s.data.flatMap charUtf8

/-- Embeds `s.as_bytes().len()` : the UTF-8 byte length of a string. -/
def utf8Len (s : String) : Nat :=
  (strBytes s).length

/-- Modelled from the spec: `consts::Facility`, absent from src/ (`pub mod
consts;` is declared in src/lib.rs but the file is not present).  The spec
describes it as the 24 standard syslog facilities, each stored as its numeric
code pre-shifted left 3 bits so that it combines with a severity via bitwise
OR (KERN = 0, USER = 1, ... LOCAL0 = 16 ... LOCAL7 = 23 before shifting). -/
inductive Facility where
  | KERN | USER | MAIL | DAEMON | AUTH | SYSLOG | LPR | NEWS
  | UUCP | CRON | AUTHPRIV | FTP | NTP | AUDIT | ALERT | CLOCK
  | LOCAL0 | LOCAL1 | LOCAL2 | LOCAL3 | LOCAL4 | LOCAL5 | LOCAL6 | LOCAL7
deriving DecidableEq, Repr

/-- Modelled from the spec: the numeric value of a facility (`facility as
u8`), the facility code shifted left 3 bits. -/
def facVal : Facility → Nat
  | .KERN => 0 | .USER => 8 | .MAIL => 16 | .DAEMON => 24
  | .AUTH => 32 | .SYSLOG => 40 | .LPR => 48 | .NEWS => 56
  | .UUCP => 64 | .CRON => 72 | .AUTHPRIV => 80 | .FTP => 88
  | .NTP => 96 | .AUDIT => 104 | .ALERT => 112 | .CLOCK => 120
  | .LOCAL0 => 128 | .LOCAL1 => 136 | .LOCAL2 => 144 | .LOCAL3 => 152
  | .LOCAL4 => 160 | .LOCAL5 => 168 | .LOCAL6 => 176 | .LOCAL7 => 184

/-- The five `log::Level` values of the `log` crate. -/
inductive Level where
  | Error | Warn | Info | Debug | Trace
deriving DecidableEq, Repr

/-- Modelled from the spec: `consts::level_to_severity`, absent from src/.
The spec fixes the mapping Error→3, Warn→4, Info→6, Debug/Trace→7. -/
def level_to_severity : Level → Nat
  | .Error => 3
  | .Warn => 4
  | .Info => 6
  | .Debug => 7
  | .Trace => 7

/-- Modelled from the spec: `consts::NILVALUE`, absent from src/.  The spec
glossary defines NILVALUE as the RFC5424 placeholder token "-". -/
def NILVALUE : String := "-"

/-- The priority computation appearing inline in the formatters:
`facility as u8 | level_to_severity(record.level())`. -/
def priority (f : Facility) (l : Level) : Nat :=
  Nat.lor (facVal f) (level_to_severity l)


/-- The U+FFFD REPLACEMENT CHARACTER, used by `String::from_utf8_lossy`. -/
def replacementChar : Char := Char.ofNat 0xFFFD

/-- Is `b` a UTF-8 continuation byte (0x80..0xBF)? -/
def isCont (b : Nat) : Bool := 0x80 ≤ b && b < 0xC0

/-- Decoding of one UTF-8-encoded scalar value whose lead byte is `b` and
whose following bytes begin `rest`.  Mirrors the validation of Rust
`core::str`: returns the decoded character (U+FFFD on an invalid maximal
subpart), whether the subpart was invalid, and the bytes remaining after the
consumed subpart.  On an invalid sequence the consumed subpart is the lead
byte alone when its first out-of-range byte follows immediately, and the
well-formed portion read so far otherwise, matching the `error_len` values
of Rust's `run_utf8_validation`. -/
def utf8DecodeOne (b : Nat) (rest : List Nat) : Char × Bool × List Nat :=
  if b < 0x80 then (Char.ofNat b, false, rest)
  else if b < 0xC2 then (replacementChar, true, rest)
  else if b < 0xE0 then
    match rest with
    | [] => (replacementChar, true, [])
    | c1 :: r2 =>
      if isCont c1 then (Char.ofNat ((b - 0xC0) * 64 + (c1 - 0x80)), false, r2)
      else (replacementChar, true, rest)
  else if b < 0xF0 then
    let lo := if b == 0xE0 then 0xA0 else 0x80
    let hi := if b == 0xED then 0xA0 else 0xC0
    match rest with
    | [] => (replacementChar, true, [])
    | c1 :: r2 =>
      if lo ≤ c1 && c1 < hi then
        match r2 with
        | [] => (replacementChar, true, [])
        | c2 :: r3 =>
          if isCont c2 then
            (Char.ofNat ((b - 0xE0) * 4096 + (c1 - 0x80) * 64 + (c2 - 0x80)), false, r3)
          else (replacementChar, true, r2)
      else (replacementChar, true, rest)
  else if b < 0xF5 then
    let lo := if b == 0xF0 then 0x90 else 0x80
    let hi := if b == 0xF4 then 0x90 else 0xC0
    match rest with
    | [] => (replacementChar, true, [])
    | c1 :: r2 =>
      if lo ≤ c1 && c1 < hi then
        match r2 with
        | [] => (replacementChar, true, [])
        | c2 :: r3 =>
          if isCont c2 then
            match r3 with
            | [] => (replacementChar, true, [])
            | c3 :: r4 =>
              if isCont c3 then
                (Char.ofNat ((b - 0xF0) * 262144 + (c1 - 0x80) * 4096 + (c2 - 0x80) * 64 + (c3 - 0x80)),
                 false, r4)
              else (replacementChar, true, r3)
          else (replacementChar, true, r2)
      else (replacementChar, true, rest)
  else (replacementChar, true, rest)

/-- Decoding of a whole byte list, with `fuel` at least the length of the
list (each step consumes at least one byte, so `fuel = l.length` always
suffices; the fuel-exhausted branch is unreachable then).  Returns the
decoded characters together with a flag recording whether any invalid
subpart was met; the flag is `false` exactly on well-formed UTF-8, which is
what `str::from_utf8` accepts. -/
def utf8Go : Nat → List Nat → List Char × Bool
  | _, [] => ([], false)
  | 0, _ => ([replacementChar], true)
  | fuel + 1, b :: rest =>
    let s := utf8DecodeOne b rest
    let r := utf8Go fuel s.2.2
    (s.1 :: r.1, s.2.1 || r.2)

/-- Full decode of a byte buffer: decoded characters plus invalidity flag. -/
def utf8Decode (l : List Nat) : List Char × Bool := utf8Go l.length l

/-- Embeds `String::from_utf8_lossy(&buf)` : total, replaces each invalid maximal
subpart with U+FFFD. -/
def from_utf8_lossy (l : List Nat) : String := ⟨(utf8Decode l).1⟩

/-- Embeds `str::from_utf8(&buf).is_ok()` : the buffer is well-formed UTF-8. -/
def isValidUtf8 (l : List Nat) : Bool := !(utf8Decode l).2

/-- Embeds `str::from_utf8(&buf).ok()` : `some` of the decoded string on well-formed
UTF-8 input, `none` otherwise. -/
def from_utf8? (l : List Nat) : Option String :=
  if (utf8Decode l).2 then none else some ⟨(utf8Decode l).1⟩


/-- A UTC wall-clock instant as `chrono::Utc::now()` produces it.  The clock
is external; formatters receive the instant as an argument. -/
structure DateTimeUtc where
  year : Nat
  month : Nat
  day : Nat
  hour : Nat
  minute : Nat
  second : Nat
  nanos : Nat
deriving DecidableEq, Repr

/-- Left-pad the decimal representation of `n` with zeros to width `w`. -/
def padNat (w n : Nat) : String :=
  ⟨List.replicate (w - (Nat.repr n).length) (Char.ofNat 48) ++ (Nat.repr n).data⟩

/-- The fractional-seconds part of chrono's `%.f` specifier: empty when the
nanosecond count is zero, otherwise a dot followed by 3, 6 or 9 digits (the
shortest of the three that loses nothing). -/
def chronoFrac (ns : Nat) : String :=
  if ns = 0 then ""
  else if ns % 1000000 = 0 then "." ++ padNat 3 (ns / 1000000)
  else if ns % 1000 = 0 then "." ++ padNat 6 (ns / 1000)
  else "." ++ padNat 9 ns

/-- Embeds `format!("{}", chrono::Utc::now())` : chrono's `Display` for
`DateTime<Utc>` prints the naive local datetime (`%Y-%m-%d %H:%M:%S%.f`),
a space, then the offset's `Display`, which for `Utc` is the literal
string "UTC". -/
def chronoDisplay (t : DateTimeUtc) : String :=
  padNat 4 t.year ++ "-" ++ padNat 2 t.month ++ "-" ++ padNat 2 t.day ++ " " ++
  padNat 2 t.hour ++ ":" ++ padNat 2 t.minute ++ ":" ++ padNat 2 t.second ++
  chronoFrac t.nanos ++ " UTC"

/-- Embeds `chrono::Utc::now().to_rfc3339_opts(SecondsFormat::Millis, false)` :
RFC3339 with exactly three fractional digits and a "+00:00" offset. -/
def toRfc3339Millis (t : DateTimeUtc) : String :=
  padNat 4 t.year ++ "-" ++ padNat 2 t.month ++ "-" ++ padNat 2 t.day ++ "T" ++
  padNat 2 t.hour ++ ":" ++ padNat 2 t.minute ++ ":" ++ padNat 2 t.second ++
  "." ++ padNat 3 (t.nanos / 1000000) ++ "+00:00"


/-- The configuration fields of `rfc5424::Format` and `rfc5425::Format`
(identical field lists; the injected encoder is externalised: formatters
receive its output buffer as an argument). -/
structure Format54 where
  facility : Facility
  hostname : String
  app_name : String
  proc_id : String
deriving DecidableEq, Repr

/-- Embeds `rfc5424::Format::new()` / `rfc5425::Format::new()` : facility LOCAL0,
empty hostname and app_name, proc_id the decimal process id (the process id
is external and passed in). -/
def Format54.new (pid : Nat) : Format54 :=
  { facility := .LOCAL0, hostname := "", app_name := "", proc_id := Nat.repr pid }

/-- Embeds `plain::Format::encode` (src/plain.rs lines 23-38): the encoder output
`buf` is decoded lossily, the priority is `Facility::USER as u8 |
level_to_severity(record.level())`, and the message written is
`format!("<{}> {}\n", priority, msg)`.  Never fails, never panics. -/
def plainEncode (lvl : Level) (buf : List Nat) : RunResult String :=
  .ok ("<" ++ Nat.repr (priority .USER lvl) ++ "> " ++ from_utf8_lossy buf ++ "\n")

/-- Embeds `rfc5424::Format::encode` (src/rfc5424.rs lines 58-89): lossy decode of
the encoder output, then
`format!("<{}>{} {} {} {} {} {} {} {}\n", priority, 1, chrono::Utc::now(),
hostname, app_name, proc_id, msg_id, struct_data, msg)` with `msg_id = 0`
and `struct_data = NILVALUE`.  The timestamp is rendered with chrono's
default `Display`, not `to_rfc3339`. -/
def rfc5424Encode (f : Format54) (lvl : Level) (now : DateTimeUtc) (buf : List Nat) : RunResult String :=
  .ok ("<" ++ Nat.repr (priority f.facility lvl) ++ ">" ++ "1" ++ " " ++
    chronoDisplay now ++ " " ++ f.hostname ++ " " ++ f.app_name ++ " " ++
    f.proc_id ++ " " ++ "0" ++ " " ++ NILVALUE ++ " " ++ from_utf8_lossy buf ++ "\n")

/-- The header+body line built by `rfc5425::Format::encode` before framing:
`format!("<{}>{} {} {} {} {} {} {} {}\n", ...)` with the millisecond RFC3339
timestamp. -/
def rfc5425Line (f : Format54) (lvl : Level) (now : DateTimeUtc) (msg : String) : String :=
  "<" ++ Nat.repr (priority f.facility lvl) ++ ">" ++ "1" ++ " " ++
  toRfc3339Millis now ++ " " ++ f.hostname ++ " " ++ f.app_name ++ " " ++
  f.proc_id ++ " " ++ "0" ++ " " ++ NILVALUE ++ " " ++ msg ++ "\n"

/-- Embeds `rfc5425::Format::encode` (src/rfc5425.rs lines 60-92):
`std::str::from_utf8(&buf).unwrap()` — a panic on non-UTF-8 encoder output —
then the header+body line, then the octet-counting framing
`format!("{} {}", msg.as_bytes().len(), msg)`. -/
def rfc5425Encode (f : Format54) (lvl : Level) (now : DateTimeUtc) (buf : List Nat) : RunResult String :=
  match from_utf8? buf with
  | none => .panicked
  | some msg =>
    let line := rfc5425Line f lvl now msg
    .ok (Nat.repr (utf8Len line) ++ " " ++ line)

/-- Embeds `SyslogAppenderProtocol` (src/lib.rs lines 62-66): a closed enum with
exactly the two variants UDP and TCP. -/
inductive SyslogAppenderProtocol where
  | UDP | TCP
deriving DecidableEq, Repr

/-- Embeds `DEFAULT_PROTOCOL` in src/lib.rs. -/
def DEFAULT_PROTOCOL : SyslogAppenderProtocol := .UDP

/-- Embeds `DEFAULT_PORT` in src/lib.rs. -/
def DEFAULT_PORT : Nat := 514

/-- Embeds `DEFAULT_ADDRESS` in src/lib.rs. -/
def DEFAULT_ADDRESS : String := "localhost:514"

/-- Embeds `DEFAULT_MAX_LENGTH` in src/lib.rs. -/
def DEFAULT_MAX_LENGTH : Nat := 2048

/-- Embeds `norm_addrs` (src/lib.rs lines 195-201): if `addrs.find(':')` is `none`,
push ':' and then the decimal default port; otherwise leave the string
untouched. -/
def norm_addrs (addrs : String) : String :=
  if addrs.data.contains (Char.ofNat 58) then addrs
  else addrs ++ ":" ++ Nat.repr DEFAULT_PORT

/-- Outcomes of the operating-system calls `build` performs; sockets,
resolved addresses and TCP streams are opaque handles modelled by `Nat`.
`resolveResult = none` models `to_socket_addrs` returning `Err`;
`resolveResult = some []` models an empty resolution iterator. -/
structure NetEnv where
  bindResult : Option Nat
  resolveResult : Option (List Nat)
  connectResult : Option Nat
deriving DecidableEq, Repr

/-- Embeds `SyslogWriter` (src/lib.rs lines 20-24). -/
inductive SyslogWriter where
  | udp (socket : Nat) (dest : Nat)
  | tcp (stream : Nat)
deriving DecidableEq, Repr

/-- Embeds `udp_writer` (src/lib.rs lines 204-208): `UdpSocket::bind("0.0.0.0:0").unwrap()`
and `rem.to_socket_addrs().unwrap().next().unwrap()` — every failure is a
panic, none is returned as an error. -/
def udp_writer (env : NetEnv) : RunResult SyslogWriter :=
  match env.bindResult with
  | none => .panicked
  | some sock =>
    match env.resolveResult with
    | none => .panicked
    | some addrs =>
      match addrs.head? with
      | none => .panicked
      | some a => .ok (.udp sock a)

/-- Embeds `tcp_writer` (src/lib.rs lines 211-214): `TcpStream::connect(rem).unwrap()`. -/
def tcp_writer (env : NetEnv) : RunResult SyslogWriter :=
  match env.connectResult with
  | none => .panicked
  | some stream => .ok (.tcp stream)

/-- Embeds `MessageFormat` (src/lib.rs lines 37-45); the Plain variant's only field
is its injected encoder, which is externalised. -/
inductive MessageFormat where
  | Plain
  | Rfc5424 (f : Format54)
  | Rfc5425 (f : Format54)
deriving DecidableEq, Repr

/-- The fields of `SyslogAppender` that the modelled behaviour reads (the
injected encoder is externalised). -/
structure SyslogAppender where
  writer : SyslogWriter
  msg_format : MessageFormat
  max_len : Nat
  protocol : SyslogAppenderProtocol
deriving DecidableEq, Repr

/-- The truncation step of `SyslogAppender::append` (src/lib.rs lines 85-91):
the formatted message's bytes are cut to `DEFAULT_MAX_LENGTH` when they
exceed it.  The appender's `max_len` field is not consulted. -/
def appendPayload (_a : SyslogAppender) (msgBytes : List Nat) : List Nat :=
  if msgBytes.length > DEFAULT_MAX_LENGTH then msgBytes.take DEFAULT_MAX_LENGTH
  else msgBytes

/-- Embeds `SyslogAppenderBuilder` (src/lib.rs lines 108-115); the encoder field is
externalised. -/
structure SyslogAppenderBuilder where
  protocol : SyslogAppenderProtocol
  addrs : String
  max_len : Nat
  msg_format : MessageFormat
deriving DecidableEq, Repr

/-- Embeds `SyslogAppenderBuilder::new`. -/
def SyslogAppenderBuilder.new : SyslogAppenderBuilder :=
  { protocol := DEFAULT_PROTOCOL, addrs := DEFAULT_ADDRESS,
    max_len := DEFAULT_MAX_LENGTH, msg_format := .Plain }

/-- Embeds `SyslogAppenderBuilder::protocol`. -/
def SyslogAppenderBuilder.withProtocol (b : SyslogAppenderBuilder) (p : SyslogAppenderProtocol) : SyslogAppenderBuilder :=
  { b with protocol := p }

/-- Embeds `SyslogAppenderBuilder::address`. -/
def SyslogAppenderBuilder.address (b : SyslogAppenderBuilder) (a : String) : SyslogAppenderBuilder :=
  { b with addrs := a }

/-- Embeds `SyslogAppenderBuilder::format`. -/
def SyslogAppenderBuilder.format (b : SyslogAppenderBuilder) (mf : MessageFormat) : SyslogAppenderBuilder :=
  { b with msg_format := mf }

/-- Embeds `SyslogAppenderBuilder::max_len`. -/
def SyslogAppenderBuilder.maxLen (b : SyslogAppenderBuilder) (ml : Nat) : SyslogAppenderBuilder :=
  { b with max_len := ml }

/-- Embeds `SyslogAppenderBuilder::build` (src/lib.rs lines 169-192): normalise the
address, open the writer for the chosen protocol (panicking on any
operating-system failure, see `udp_writer` / `tcp_writer`), and return
`Ok(appender)` — the `io::Result` error branch is never produced. -/
def SyslogAppenderBuilder.build (b : SyslogAppenderBuilder) (env : NetEnv) : RunResult SyslogAppender :=
  let _addrs := norm_addrs b.addrs
  let writer := match b.protocol with
    | .UDP => udp_writer env
    | .TCP => tcp_writer env
  match writer with
  | .ok w => .ok { writer := w, msg_format := b.msg_format,
                   max_len := b.max_len, protocol := b.protocol }
  | .err e => .err e
  | .panicked => .panicked

/-- Embeds `MessageFormatKind` (src/config.rs): the three format kinds accepted by
the configuration, deserialised from the lowercase tokens "plain",
"rfc5424", "rfc5425"; defaults to plain. -/
inductive MessageFormatKind where
  | plain | rfc5424 | rfc5425
deriving DecidableEq, Repr

/-- Embeds `SyslogFormatConfig` (src/config.rs). -/
structure SyslogFormatConfig where
  kind : MessageFormatKind
  facility : Option Facility
  hostname : Option String
  app_name : Option String
  proc_id : Option String
deriving DecidableEq, Repr

/-- Embeds `SyslogAppenderConfig` (src/config.rs lines 33-39): the whole
configuration surface of the appender.  It has exactly the three fields
`address`, `format` and `encoder` — in particular, no protocol field.  The
encoder configuration carries no information the model reads, so it is a
unit. -/
structure SyslogAppenderConfig where
  address : Option String
  format : Option SyslogFormatConfig
  encoder : Option Unit
deriving DecidableEq, Repr

/-- A raw configuration document as handed to serde: the three recognised
keys plus whatever other keys the document carries. -/
structure RawSyslogDoc where
  address : Option String
  format : Option SyslogFormatConfig
  encoder : Option Unit
  unknown : List (String × String)
deriving DecidableEq, Repr

/-- The `#[derive(Deserialize)]` on `SyslogAppenderConfig` (src/config.rs):
serde's derived deserialiser reads only the declared fields `address`,
`format` and `encoder`; with no `deny_unknown_fields` attribute, serde's
documented default is to skip every unrecognised key silently, so the
`unknown` entries of the document are dropped without an error. -/
def parseSyslogAppenderConfig (d : RawSyslogDoc) : SyslogAppenderConfig :=
  { address := d.address, format := d.format, encoder := d.encoder }

/-- The optional-field application chain of the rfc5424/rfc5425 arms of
`SyslogAppenderDeserializer::deserialize` (src/config.rs). -/
def applyFormatConfig (f : Format54) (fc : SyslogFormatConfig) : Format54 :=
  let f := match fc.facility with | some x => { f with facility := x } | none => f
  let f := match fc.hostname with | some x => { f with hostname := x } | none => f
  let f := match fc.app_name with | some x => { f with app_name := x } | none => f
  match fc.proc_id with | some x => { f with proc_id := x } | none => f

/-- Embeds `SyslogAppenderDeserializer::deserialize` (src/config.rs): build a fresh
builder, apply the optional address, select the format by kind (defaulting to
plain), deserialise the optional encoder (whose failure the `?` operator
returns as an error), and run `builder.build()`.  The builder's protocol is
never touched.  `encResult` is the outcome the host framework's encoder
deserialiser would produce, consulted only when an encoder is configured. -/
def deserializeAppender (cfg : SyslogAppenderConfig) (pid : Nat)
    (encResult : Except String Unit) (env : NetEnv) : RunResult SyslogAppender :=
  let b := SyslogAppenderBuilder.new
  let b := match cfg.address with | some a => b.address a | none => b
  let kind := (cfg.format.map (fun fc => fc.kind)).getD .plain
  let encStep : Except String Unit :=
    match cfg.encoder with
    | some _ => encResult
    | none => .ok ()
  match encStep with
  | .error e => .err e
  | .ok _ =>
    let b := match kind with
      | .plain => b.format .Plain
      | .rfc5424 =>
        let f := Format54.new pid
        let f := match cfg.format with | some fc => applyFormatConfig f fc | none => f
        b.format (.Rfc5424 f)
      | .rfc5425 =>
        let f := Format54.new pid
        let f := match cfg.format with | some fc => applyFormatConfig f fc | none => f
        b.format (.Rfc5425 f)
    b.build env

/-- Modelled from the spec: the Plain formatter contract
`format(facility, level, renderedBody) -> bytes` with output
`"<PRI> " + renderedBody + "\n"` where PRI is computed from the supplied
facility and the record's level.  This is the claim's reading, kept for
comparison with `plainEncode`, which is translated from src/plain.rs. -/
def plainFormatSpec (fac : Facility) (lvl : Level) (body : String) : String :=
  "<" ++ Nat.repr (priority fac lvl) ++ "> " ++ body ++ "\n"

/-- Does a character list start an RFC3339 numeric offset or Z, and nothing
else?  (`Z`/`z`, or sign, two digits, colon, two digits.) -/
def rfc3339Offset : List Char → Bool
  | [z] => z == Char.ofNat 90 || z == Char.ofNat 122
  | [sgn, h1, h2, col, m1, m2] =>
    (sgn == Char.ofNat 43 || sgn == Char.ofNat 45) && h1.isDigit && h2.isDigit &&
    col == Char.ofNat 58 && m1.isDigit && m2.isDigit
  | _ => false

/-- The tail of an RFC3339 timestamp after the seconds field: an optional
fraction (dot followed by at least one digit) and then the offset. -/
def rfc3339Tail (l : List Char) : Bool :=
  match l with
  | [] => false
  | c :: rest =>
    if c == Char.ofNat 46 then
      rest.takeWhile Char.isDigit ≠ [] && rfc3339Offset (rest.dropWhile Char.isDigit)
    else rfc3339Offset l

/-- A permissive RFC3339 `date-time` syntax check:
`YYYY-MM-DDTHH:MM:SS[.digits](Z|±HH:MM)`, accepting upper or lower case for
`T`/`Z` and even a space in place of the `T` separator (the relaxation RFC
3339 section 5.6 notes for readability).  Value ranges are not checked, so
every string the claim would accept as RFC3339 is accepted here. -/
def isRfc3339 (s : String) : Bool :=
  match s.data with
  | y1 :: y2 :: y3 :: y4 :: da1 :: mo1 :: mo2 :: da2 :: dd1 :: dd2 :: sep ::
    h1 :: h2 :: co1 :: mi1 :: mi2 :: co2 :: se1 :: se2 :: rest =>
    y1.isDigit && y2.isDigit && y3.isDigit && y4.isDigit &&
    da1 == Char.ofNat 45 && mo1.isDigit && mo2.isDigit && da2 == Char.ofNat 45 &&
    dd1.isDigit && dd2.isDigit &&
    (sep == Char.ofNat 84 || sep == Char.ofNat 116 || sep == Char.ofNat 32) &&
    h1.isDigit && h2.isDigit && co1 == Char.ofNat 58 &&
    mi1.isDigit && mi2.isDigit && co2 == Char.ofNat 58 &&
    se1.isDigit && se2.isDigit && rfc3339Tail rest
  | _ => false


/-- The octet-count token of a framed RFC5425 message: the characters before
the first space. -/
def frameHead (s : String) : String :=
  ⟨s.data.takeWhile (fun c => c != spaceChar)⟩

/-- Everything after the first space of a framed RFC5425 message. -/
def frameTail (s : String) : String :=
  ⟨(s.data.dropWhile (fun c => c != spaceChar)).tail⟩

/-! Sanity checks of the embedding on concrete values. -/

example : priority .USER .Error = 11 := by decide
example : charUtf8 (Char.ofNat 0xE9) = [0xC3, 0xA9] := by decide
example : from_utf8? [0x68, 0x69] = some "hi" := by decide
example : from_utf8? [0xFF] = none := by decide
example : from_utf8_lossy [0x61, 0xFF, 0x62] = ⟨[Char.ofNat 97, replacementChar, Char.ofNat 98]⟩ := by decide
example : from_utf8? [0xC3, 0xA9] = some ⟨[Char.ofNat 0xE9]⟩ := by decide
example : from_utf8? [0xE2, 0x82, 0xAC] = some ⟨[Char.ofNat 0x20AC]⟩ := by decide
example : from_utf8? [0xED, 0xA0, 0x80] = none := by decide
example : from_utf8? [0xC0, 0xAF] = none := by decide
example : chronoDisplay ⟨2024, 1, 1, 0, 0, 0, 0⟩ = "2024-01-01 00:00:00 UTC" := by decide
example : toRfc3339Millis ⟨2024, 1, 2, 3, 4, 5, 6000000⟩ = "2024-01-02T03:04:05.006+00:00" := by decide
example : isRfc3339 "2024-01-02T03:04:05.006+00:00" = true := by decide
example : isRfc3339 "2024-01-01T00:00:00Z" = true := by decide
example : isRfc3339 "2024-01-01 00:00:00 UTC" = false := by decide

/-! Auxiliary lemmas. -/

/-- No decimal digit character is the space character. -/
theorem digitChar_ne_space (m : Nat) : Nat.digitChar m ≠ spaceChar := by
  have hb : ∀ k, k < 16 → Nat.digitChar k ≠ spaceChar := by decide
  rcases Nat.lt_or_ge m 16 with h | h
  · exact hb m h
  · have hstar : Nat.digitChar m = Char.ofNat 42 := by
      unfold Nat.digitChar
      repeat rw [if_neg (by omega)]
    rw [hstar]; decide

/-- Every character `Nat.toDigitsCore` emits over an accumulator free of
spaces is itself not a space. -/
theorem toDigitsCore_ne_space :
    ∀ (fuel n : Nat) (ds : List Char), (∀ c ∈ ds, c ≠ spaceChar) →
      ∀ c ∈ Nat.toDigitsCore 10 fuel n ds, c ≠ spaceChar := by
  intro fuel
  induction fuel with
  | zero =>
    intro n ds h c hc
    exact h c hc
  | succ f ih =>
    intro n ds h c hc
    unfold Nat.toDigitsCore at hc
    by_cases hz : n / 10 = 0
    · simp only [hz, if_pos] at hc
      rcases List.mem_cons.mp hc with h1 | h2
      · exact h1 ▸ digitChar_ne_space _
      · exact h c h2
    · simp only [hz, if_neg, if_false] at hc
      refine ih (n / 10) _ ?_ c hc
      intro d hd
      rcases List.mem_cons.mp hd with h1 | h2
      · exact h1 ▸ digitChar_ne_space _
      · exact h d h2

/-- The decimal representation of a natural number contains no space. -/
theorem repr_ne_space (n : Nat) : ∀ c ∈ (Nat.repr n).data, c ≠ spaceChar := by
  intro c hc
  have : (Nat.repr n).data = Nat.toDigitsCore 10 (n + 1) n [] := rfl
  rw [this] at hc
  exact toDigitsCore_ne_space (n + 1) n [] (by intro d hd; cases hd) c hc

/-- Splitting at the first space of `l ++ space :: r` recovers `l` when `l`
holds no space. -/
theorem takeWhile_append_space (l r : List Char) (h : ∀ c ∈ l, c ≠ spaceChar) :
    (l ++ spaceChar :: r).takeWhile (fun c => c != spaceChar) = l := by
  induction l with
  | nil => simp [List.takeWhile]
  | cons a as ih =>
    have ha : (a != spaceChar) = true := by
      simp [bne_iff_ne]
      exact h a (List.mem_cons_self a as)
    simp only [List.cons_append, List.takeWhile_cons, ha, if_pos]
    rw [ih (fun c hc => h c (List.mem_cons_of_mem a hc))]

/-- Dropping up to the first space of `l ++ space :: r` leaves `space :: r`
when `l` holds no space. -/
theorem dropWhile_append_space (l r : List Char) (h : ∀ c ∈ l, c ≠ spaceChar) :
    (l ++ spaceChar :: r).dropWhile (fun c => c != spaceChar) = spaceChar :: r := by
  induction l with
  | nil => simp [List.dropWhile]
  | cons a as ih =>
    have ha : (a != spaceChar) = true := by
      simp [bne_iff_ne]
      exact h a (List.mem_cons_self a as)
    simp only [List.cons_append, List.dropWhile_cons, ha, if_pos]
    exact ih (fun c hc => h c (List.mem_cons_of_mem a hc))

/-- Splitting a framed message `repr n ++ " " ++ s` at its first space
recovers the decimal token and the framed line. -/
theorem frame_split (n : Nat) (s : String) :
    frameHead (Nat.repr n ++ " " ++ s) = Nat.repr n ∧
    frameTail (Nat.repr n ++ " " ++ s) = s := by
  have hdata : (Nat.repr n ++ " " ++ s).data =
      (Nat.repr n).data ++ spaceChar :: s.data := by
    simp [String.data_append]
    rfl
  constructor
  · show (⟨(Nat.repr n ++ " " ++ s).data.takeWhile (fun c => c != spaceChar)⟩ : String) = Nat.repr n
    rw [hdata, takeWhile_append_space _ _ (repr_ne_space n)]
  · show (⟨((Nat.repr n ++ " " ++ s).data.dropWhile (fun c => c != spaceChar)).tail⟩ : String) = s
    rw [hdata, dropWhile_append_space _ _ (repr_ne_space n)]
    rfl

/-- A decoding step either succeeds or emits the replacement character. -/
theorem utf8DecodeOne_err_or (b : Nat) (rest : List Nat) :
    (utf8DecodeOne b rest).2.1 = false ∨ (utf8DecodeOne b rest).1 = replacementChar := by
  unfold utf8DecodeOne
  repeat' split
  all_goals simp
  all_goals repeat' split
  all_goals simp

/-- Whenever the decoder reports invalid input, the replacement character
appears among the decoded characters. -/
theorem utf8Go_mem_replacement :
    ∀ (fuel : Nat) (l : List Nat), (utf8Go fuel l).2 = true →
      replacementChar ∈ (utf8Go fuel l).1 := by
  intro fuel
  induction fuel with
  | zero =>
    intro l hf
    cases l with
    | nil => simp [utf8Go] at hf
    | cons b rest => simp [utf8Go]
  | succ f ih =>
    intro l hf
    cases l with
    | nil => simp [utf8Go] at hf
    | cons b rest =>
      simp only [utf8Go] at hf ⊢
      rcases Bool.or_eq_true_iff.mp hf with he | hr
      · rcases utf8DecodeOne_err_or b rest with h0 | h0
        · rw [he] at h0; cases h0
        · rw [h0]; exact List.mem_cons_self _ _
      · exact List.mem_cons_of_mem _ (ih _ hr)

/-- Whenever a byte buffer is not well-formed UTF-8, its lossy decoding
contains the replacement character. -/
theorem from_utf8_lossy_mem_replacement (l : List Nat) (h : isValidUtf8 l = false) :
    replacementChar ∈ (from_utf8_lossy l).data := by
  have hf : (utf8Decode l).2 = true := by
    simpa [isValidUtf8] using h
  exact utf8Go_mem_replacement _ _ hf

/-! Claim theorems. -/

/-- C1: for every RFC5425-formatted message, the emitted bytes are the
decimal byte length of the header+body line (trailing newline included),
then a single space, then that line itself; the numeric token before the
first space is the exact byte length of everything after that space, for
ASCII and multi-byte UTF-8 bodies alike (the body is any byte buffer the
injected encoder produced that decodes as UTF-8). -/
theorem C1_rfc5425_octet_framing (f : Format54) (lvl : Level) (now : DateTimeUtc)
    (buf : List Nat) (msg : String) (h : from_utf8? buf = some msg) :
    ∃ out, rfc5425Encode f lvl now buf = .ok out ∧
      out = Nat.repr (utf8Len (rfc5425Line f lvl now msg)) ++ " " ++ rfc5425Line f lvl now msg ∧
      frameTail out = rfc5425Line f lvl now msg ∧
      frameHead out = Nat.repr (utf8Len (frameTail out)) := by
  refine ⟨Nat.repr (utf8Len (rfc5425Line f lvl now msg)) ++ " " ++ rfc5425Line f lvl now msg,
    ?_, rfl, ?_, ?_⟩
  · simp [rfc5425Encode, h]
  · exact (frame_split _ _).2
  · rw [(frame_split _ _).2, (frame_split _ _).1]

/-- Witness for C1 at a concrete multi-byte body: the encoder output is the
two UTF-8 bytes of U+00E9. -/
theorem C1_rfc5425_octet_framing_witness :
    from_utf8? [195, 169] = some ⟨[Char.ofNat 233]⟩ ∧
    (∃ out, rfc5425Encode ⟨.USER, "h", "a", "1"⟩ .Error ⟨2024, 1, 2, 3, 4, 5, 6000000⟩ [195, 169] = .ok out ∧
      out = Nat.repr (utf8Len (rfc5425Line ⟨.USER, "h", "a", "1"⟩ .Error ⟨2024, 1, 2, 3, 4, 5, 6000000⟩ ⟨[Char.ofNat 233]⟩)) ++ " " ++
        rfc5425Line ⟨.USER, "h", "a", "1"⟩ .Error ⟨2024, 1, 2, 3, 4, 5, 6000000⟩ ⟨[Char.ofNat 233]⟩ ∧
      frameTail out = rfc5425Line ⟨.USER, "h", "a", "1"⟩ .Error ⟨2024, 1, 2, 3, 4, 5, 6000000⟩ ⟨[Char.ofNat 233]⟩ ∧
      frameHead out = Nat.repr (utf8Len (frameTail out))) :=
  ⟨by decide, C1_rfc5425_octet_framing _ _ _ _ _ (by decide)⟩

/-- C2 (code bug): the appender built with configured maximum length 1
still truncates to `DEFAULT_MAX_LENGTH` = 2048 bytes: the `max_len` field is
stored by the builder but `append` consults the constant instead, so a
3000-byte payload yields 2048 transmitted bytes, not the configured 1. -/
theorem C2_truncation_ignores_configured_max_len :
    ∃ app : SyslogAppender,
      (SyslogAppenderBuilder.new.maxLen 1).build ⟨some 0, some [7], some 0⟩ = .ok app ∧
      app.max_len = 1 ∧
      (appendPayload app (List.replicate 3000 97)).length = 2048 ∧
      (appendPayload app (List.replicate 3000 97)).length ≠ 1 := by
  have hstep : appendPayload ⟨.udp 0 7, .Plain, 1, .UDP⟩ (List.replicate 3000 97) =
      List.take 2048 (List.replicate 3000 97) := by
    simp only [appendPayload, DEFAULT_MAX_LENGTH, List.length_replicate]
    rw [if_pos (by omega)]
  have hlen : (List.take 2048 (List.replicate 3000 97)).length = 2048 := by
    rw [List.length_take, List.length_replicate]
    omega
  refine ⟨⟨.udp 0 7, .Plain, 1, .UDP⟩, by decide, rfl, ?_, ?_⟩
  · rw [hstep, hlen]
  · rw [hstep, hlen]
    omega

/-- C6: the priority computation is a total function of facility and level,
equal to the pre-shifted facility code bitwise-OR'd with the severity of the
level (Error→3, Warn→4, Info→6, Debug/Trace→7), always within [0, 191];
facility USER with level Error gives 11. -/
theorem C6_priority_total_bounded :
    (∀ (f : Facility) (l : Level),
      priority f l = Nat.lor (facVal f) (level_to_severity l) ∧ priority f l ≤ 191) ∧
    level_to_severity .Error = 3 ∧ level_to_severity .Warn = 4 ∧
    level_to_severity .Info = 6 ∧ level_to_severity .Debug = 7 ∧
    level_to_severity .Trace = 7 ∧
    priority .USER .Error = 11 := by
  refine ⟨?_, by decide, by decide, by decide, by decide, by decide, by decide⟩
  intro f l
  exact ⟨rfl, by cases f <;> cases l <;> decide⟩

/-- Helper: a string already containing ':' is left unchanged. -/
theorem norm_addrs_of_mem {s : String} (h : Char.ofNat 58 ∈ s.data) : norm_addrs s = s := by
  simp [norm_addrs, h]

/-- Helper: appending the default port token. -/
theorem append_port_eq (s : String) : s ++ ":" ++ Nat.repr DEFAULT_PORT = s ++ ":514" := by
  apply String.ext
  simp [String.data_append, List.append_assoc]
  decide

/-- Helper: a string without ':' gets ":514" appended. -/
theorem norm_addrs_of_not_mem {s : String} (h : Char.ofNat 58 ∉ s.data) :
    norm_addrs s = s ++ ":514" := by
  rw [← append_port_eq s]
  simp [norm_addrs, h]

/-- Helper: a normalized address always contains ':'. -/
theorem mem_colon_norm_addrs (s : String) : Char.ofNat 58 ∈ (norm_addrs s).data := by
  by_cases h : Char.ofNat 58 ∈ s.data
  · rw [norm_addrs_of_mem h]; exact h
  · rw [norm_addrs_of_not_mem h]
    simp [String.data_append]

/-- C7: address normalization appends ":514" exactly when the configured
address contains no ':' and returns the string unchanged otherwise;
"example.com" becomes "example.com:514" while "example.com:1999" is kept. -/
theorem C7_norm_addrs_default_port :
    (∀ s : String, Char.ofNat 58 ∉ s.data → norm_addrs s = s ++ ":514") ∧
    (∀ s : String, Char.ofNat 58 ∈ s.data → norm_addrs s = s) ∧
    norm_addrs "example.com" = "example.com:514" ∧
    norm_addrs "example.com:1999" = "example.com:1999" := by
  refine ⟨?_, ?_, by decide, by decide⟩
  · intro s h
    exact norm_addrs_of_not_mem h
  · intro s h
    exact norm_addrs_of_mem h

/-- Witness for C7 at the concrete addresses of the claim. -/
theorem C7_norm_addrs_default_port_witness :
    (Char.ofNat 58 ∉ "example.com".data ∧
      norm_addrs "example.com" = "example.com" ++ ":514") ∧
    (Char.ofNat 58 ∈ "example.com:1999".data ∧
      norm_addrs "example.com:1999" = "example.com:1999") :=
  ⟨⟨by decide, C7_norm_addrs_default_port.1 "example.com" (by decide)⟩,
   ⟨by decide, C7_norm_addrs_default_port.2.1 "example.com:1999" (by decide)⟩⟩

/-- C9: `norm_addrs` is idempotent, and every address already containing a
':' anywhere — a bare IPv6 literal such as "::1" included — is returned
entirely unchanged, so such addresses never receive the default port. -/
theorem C9_norm_addrs_idempotent :
    (∀ s : String, norm_addrs (norm_addrs s) = norm_addrs s) ∧
    (∀ s : String, Char.ofNat 58 ∈ s.data → norm_addrs s = s) ∧
    norm_addrs "::1" = "::1" := by
  refine ⟨?_, ?_, by decide⟩
  · intro s
    exact norm_addrs_of_mem (mem_colon_norm_addrs s)
  · intro s h
    exact norm_addrs_of_mem h

/-- Witness for C9 at a bare IPv6 literal. -/
theorem C9_norm_addrs_idempotent_witness :
    norm_addrs (norm_addrs "::1") = norm_addrs "::1" ∧
    (Char.ofNat 58 ∈ "::1".data ∧ norm_addrs "::1" = "::1") :=
  ⟨C9_norm_addrs_idempotent.1 "::1",
   by decide, C9_norm_addrs_idempotent.2.1 "::1" (by decide)⟩

/-- C3 counterexample: formatting with the RFC5425 formatter panics on a
non-UTF-8 encoder output, and building a UDP appender panics when address
resolution yields no address — neither failure is returned as a typed error
value. -/
theorem C3_unwrap_panics_counterexample :
    rfc5425Encode ⟨.LOCAL0, "", "", "1"⟩ .Error ⟨2024, 1, 1, 0, 0, 0, 0⟩ [255] = .panicked ∧
    udp_writer ⟨some 0, some [], some 0⟩ = .panicked :=
  ⟨by decide, by decide⟩

/-- C3 amended: the Plain and RFC5424 formatters never panic, but the
RFC5425 formatter panics exactly on non-UTF-8 encoder output, and the
builder's socket acquisition panics exactly when the bind, resolution or
connect step fails, instead of returning a typed error. -/
theorem C3_panic_boundary :
    (∀ (lvl : Level) (buf : List Nat), plainEncode lvl buf ≠ .panicked) ∧
    (∀ (f : Format54) (lvl : Level) (now : DateTimeUtc) (buf : List Nat),
      rfc5424Encode f lvl now buf ≠ .panicked) ∧
    (∀ (f : Format54) (lvl : Level) (now : DateTimeUtc) (buf : List Nat),
      rfc5425Encode f lvl now buf = .panicked ↔ isValidUtf8 buf = false) ∧
    (∀ env : NetEnv, udp_writer env = .panicked ↔
      (env.bindResult = none ∨ env.resolveResult = none ∨ env.resolveResult = some [])) ∧
    (∀ env : NetEnv, tcp_writer env = .panicked ↔ env.connectResult = none) := by
  refine ⟨?_, ?_, ?_, ?_, ?_⟩
  · intro lvl buf
    simp [plainEncode]
  · intro f lvl now buf
    simp [rfc5424Encode]
  · intro f lvl now buf
    unfold rfc5425Encode from_utf8? isValidUtf8
    cases h : (utf8Decode buf).2 <;> simp [h]
  · intro env
    obtain ⟨b, r, c⟩ := env
    rcases b with _ | sock <;> rcases r with _ | addrs <;> simp [udp_writer]
    rcases addrs with _ | ⟨a, as⟩ <;> simp
  · intro env
    obtain ⟨b, r, c⟩ := env
    rcases c with _ | stream <;> simp [tcp_writer]

/-- Witness for C3's amended statement: a concrete panic obtained through
the equivalence. -/
theorem C3_panic_boundary_witness :
    rfc5425Encode ⟨.USER, "", "", "1"⟩ .Error ⟨2024, 1, 1, 0, 0, 0, 0⟩ [254] = .panicked :=
  (C3_panic_boundary.2.2.1 ⟨.USER, "", "", "1"⟩ .Error ⟨2024, 1, 1, 0, 0, 0, 0⟩ [254]).mpr
    (by decide)

/-- C4 (code bug): the RFC5424 formatter renders the timestamp with chrono's
default `Display` — "2024-01-01 00:00:00 UTC", with internal spaces and a
" UTC" suffix — so no decomposition of the output in the claim's shape
carries an RFC3339 timestamp token. -/
theorem C4_rfc5424_timestamp_not_rfc3339 :
    rfc5424Encode ⟨.USER, "h", "a", "1"⟩ .Error ⟨2024, 1, 1, 0, 0, 0, 0⟩ [109] =
      .ok "<11>1 2024-01-01 00:00:00 UTC h a 1 0 - m\n" ∧
    ¬ ∃ ts : String, "<11>1 2024-01-01 00:00:00 UTC h a 1 0 - m\n" =
        "<11>1 " ++ ts ++ " h a 1 0 - m\n" ∧ isRfc3339 ts = true := by
  constructor
  · decide
  · rintro ⟨ts, heq, hr⟩
    have hd : ("<11>1 ".data ++ ts.data) ++ " h a 1 0 - m\n".data =
        ("<11>1 ".data ++ "2024-01-01 00:00:00 UTC".data) ++ " h a 1 0 - m\n".data := by
      have h0 := congrArg String.data heq
      rw [String.data_append, String.data_append] at h0
      rw [← h0]
      decide
    have h2 : ts.data = "2024-01-01 00:00:00 UTC".data :=
      List.append_cancel_left (List.append_cancel_right hd)
    have hts : ts = "2024-01-01 00:00:00 UTC" := by
      cases ts
      cases h2
      rfl
    rw [hts] at hr
    exact absurd hr (by decide)

/-- C5 counterexample: the Plain formatter has no supplied facility — its
priority is computed from the fixed facility USER, so for the supplied
facility LOCAL0 the output does not carry LOCAL0's priority. -/
theorem C5_plain_fixed_facility_counterexample :
    plainEncode .Error (strBytes "x") = .ok "<11> x\n" ∧
    plainFormatSpec .LOCAL0 .Error "x" = "<131> x\n" ∧
    plainEncode .Error (strBytes "x") ≠ .ok (plainFormatSpec .LOCAL0 .Error "x") :=
  ⟨by decide, by decide, by decide⟩

/-- C5 amended: the Plain formatter's output is exactly
"<PRI> " ++ renderedBody ++ "\n" where PRI is USER(8) OR'd with the record's
severity — the facility is fixed to USER, not supplied; body "hello" with
level Error yields "<11> hello\n". -/
theorem C5_plain_format_amended :
    (∀ (lvl : Level) (buf : List Nat),
      plainEncode lvl buf =
        .ok ("<" ++ Nat.repr (Nat.lor (facVal .USER) (level_to_severity lvl)) ++ "> " ++
          from_utf8_lossy buf ++ "\n")) ∧
    plainEncode .Error (strBytes "hello") = .ok "<11> hello\n" :=
  ⟨fun _ _ => rfl, by decide⟩

/-- Helper: an appender the builder returns carries the builder's protocol. -/
theorem build_protocol_eq (b : SyslogAppenderBuilder) (env : NetEnv) (app : SyslogAppender)
    (h : b.build env = .ok app) : app.protocol = b.protocol := by
  simp only [SyslogAppenderBuilder.build] at h
  repeat split at h
  all_goals cases h
  all_goals rfl

/-- C8 counterexample: a configuration document carrying the unrecognized
protocol token "sctp" is deserialised without any error — the token is
dropped, a UDP socket is opened, and the appender is built with the default
UDP protocol. -/
theorem C8_protocol_token_ignored_counterexample :
    deserializeAppender (parseSyslogAppenderConfig ⟨none, none, none, [("protocol", "sctp")]⟩)
      1234 (.ok ()) ⟨some 0, some [7], some 0⟩ =
      .ok ⟨.udp 0 7, .Plain, 2048, .UDP⟩ ∧
    (⟨.udp 0 7, .Plain, 2048, .UDP⟩ : SyslogAppender).protocol = .UDP :=
  ⟨by decide, rfl⟩

/-- C8 amended: the configuration surface exposes no protocol field at all;
whatever the raw document carries, every appender it yields uses the default
UDP protocol — no token can select another protocol or cause a protocol
error. -/
theorem C8_config_protocol_always_udp (d : RawSyslogDoc) (pid : Nat)
    (encResult : Except String Unit) (env : NetEnv) (app : SyslogAppender)
    (h : deserializeAppender (parseSyslogAppenderConfig d) pid encResult env = .ok app) :
    app.protocol = .UDP := by
  obtain ⟨addr, fmt, enc, unk⟩ := d
  simp only [deserializeAppender, parseSyslogAppenderConfig] at h
  have hfin : ∀ b : SyslogAppenderBuilder,
      b.protocol = .UDP → b.build env = .ok app → app.protocol = .UDP := by
    intro b hb hh
    rw [build_protocol_eq b env app hh, hb]
  rcases enc with _ | e
  · rcases fmt with _ | fc
    · rcases addr with _ | a
      · exact hfin _ rfl h
      · exact hfin _ rfl h
    · obtain ⟨kind, fac, hn, an, pi⟩ := fc
      cases kind <;> rcases addr with _ | a <;> exact hfin _ rfl h
  · rcases encResult with eerr | eok
    · cases h
    · rcases fmt with _ | fc
      · rcases addr with _ | a
        · exact hfin _ rfl h
        · exact hfin _ rfl h
      · obtain ⟨kind, fac, hn, an, pi⟩ := fc
        cases kind <;> rcases addr with _ | a <;> exact hfin _ rfl h

/-- Witness for C8's amended statement at a concrete document. -/
theorem C8_config_protocol_always_udp_witness :
    (⟨.udp 0 7, .Plain, 2048, .UDP⟩ : SyslogAppender).protocol = .UDP :=
  C8_config_protocol_always_udp ⟨none, none, none, [("protocol", "sctp")]⟩ 1234 (.ok ())
    ⟨some 0, some [7], some 0⟩ ⟨.udp 0 7, .Plain, 2048, .UDP⟩ (by decide)

/-- C10: the Plain and RFC5424 formatters succeed on every byte buffer the
injected encoder produces — including buffers that are not valid UTF-8,
where the lossy conversion puts U+FFFD into the output instead of failing. -/
theorem C10_lossy_formatters_total (lvl : Level) (f : Format54) (now : DateTimeUtc)
    (buf : List Nat) :
    (∃ s, plainEncode lvl buf = .ok s ∧
      (isValidUtf8 buf = false → replacementChar ∈ s.data)) ∧
    (∃ s, rfc5424Encode f lvl now buf = .ok s ∧
      (isValidUtf8 buf = false → replacementChar ∈ s.data)) := by
  constructor
  · refine ⟨_, rfl, fun h => ?_⟩
    have hm := from_utf8_lossy_mem_replacement buf h
    simp only [String.data_append]
    exact List.mem_append.mpr (Or.inl (List.mem_append.mpr (Or.inr hm)))
  · refine ⟨_, rfl, fun h => ?_⟩
    have hm := from_utf8_lossy_mem_replacement buf h
    simp only [String.data_append]
    exact List.mem_append.mpr (Or.inl (List.mem_append.mpr (Or.inr hm)))

/-- Witness for C10 at the invalid buffer [255]. -/
theorem C10_lossy_formatters_total_witness :
    isValidUtf8 [255] = false ∧
    ((∃ s, plainEncode .Error [255] = .ok s ∧
        (isValidUtf8 [255] = false → replacementChar ∈ s.data)) ∧
      (∃ s, rfc5424Encode ⟨.USER, "", "", "1"⟩ .Error ⟨2024, 1, 1, 0, 0, 0, 0⟩ [255] = .ok s ∧
        (isValidUtf8 [255] = false → replacementChar ∈ s.data))) :=
  ⟨by decide,
   C10_lossy_formatters_total .Error ⟨.USER, "", "", "1"⟩ ⟨2024, 1, 1, 0, 0, 0, 0⟩ [255]⟩
